import Mathlib

/-!
Shallow embedding of the garmin-health-tracker sync pipeline
(`src/fetch_garmin_data.py`, schema from `src/app.py`).

Numeric metric values are modelled as `Int`; a value missing from a remote
response (Python `None`, or a `dict.get` miss) is `Option.none`.  A remote
call that raises an exception is modelled as `Option.none` at the call
level; a call that returns normally is `Option.some` of its response.
SQLite tables are modelled as lists of rows; the `UNIQUE` natural-key
tables (`daily_health`, `activities`) are association lists keyed on the
natural key, the bag tables (`activity_heart_rate`, `sport_metrics`) are
plain row lists.
-/

namespace Garmin

/-- One row of `daily_health` (metric columns only; the surrogate
`id`/`created_at` columns carry no sync semantics).  Field names follow the
keys of `daily_data` in `fetch_garmin_data`. -/
structure DailyData where
  steps : Option Int
  distance_meters : Option Int
  resting_hr : Option Int
  max_hr : Option Int
  sleep_duration : Option Int
  sleep_score : Option Int
  body_battery : Option Int
  respiration : Option Int
  spo2 : Option Int
  vo2_max : Option Int
deriving DecidableEq, Repr

/-- Response of `client.get_stats(date)` (the keys the code reads). -/
structure StatsData where
  totalSteps : Option Int
  totalDistanceMeters : Option Int
  vo2Max : Option Int
deriving DecidableEq, Repr

/-- Response of `client.get_heart_rates(date)`. -/
structure HrData where
  restingHeartRate : Option Int
  maxHeartRate : Option Int
deriving DecidableEq, Repr

/-- Response of `client.get_sleep_data(date)`: the code reads
`dailySleepDTO.sleepScores.overall.value` and `dailySleepDTO.sleepTimeSeconds`
through `.get(..., {})` chains, so each is simply an optional value. -/
structure SleepData where
  overallScore : Option Int
  sleepTimeSeconds : Option Int
deriving DecidableEq, Repr

/-- One entry of the `client.get_body_battery(date)` response list. -/
structure BodyBatteryEntry where
  charged : Option Int
deriving DecidableEq, Repr

/-- Response of `client.get_respiration_data(date)`. -/
structure RespirationData where
  avgWakingRespirationValue : Option Int
deriving DecidableEq, Repr

/-- Response of `client.get_pulse_ox(date)`. -/
structure Spo2Data where
  averageSpo2 : Option Int
deriving DecidableEq, Repr

/-- The remote endpoints consulted for one date by the daily loop.
`none` models the call raising an exception. -/
structure DailyRemote where
  get_stats : Option StatsData
  get_heart_rates : Option HrData
  get_sleep_data : Option SleepData
  get_body_battery : Option (List BodyBatteryEntry)
  get_respiration_data : Option RespirationData
  get_pulse_ox : Option Spo2Data
deriving DecidableEq, Repr

/-- The `daily_health` table: at most one row per `date` (UNIQUE). -/
abbrev DailyStore := List (String × DailyData)

/-- `save_daily_health`: `INSERT OR REPLACE INTO daily_health` keyed on the
unique `date` column — the old row for that date (if any) is replaced
wholesale by the new one. -/
def save_daily_health (s : DailyStore) (date_str : String) (d : DailyData) : DailyStore :=
  (date_str, d) :: s.filter (fun p => p.1 != date_str)

/-- Lookup of the stored record for a date (SQL `WHERE date = ?`). -/
def lookupDaily (s : DailyStore) (date_str : String) : Option DailyData :=
  (s.find? (fun p => p.1 == date_str)).map (fun p => p.2)

/-- Sleep fields, from the inner `try` of lines 184-190: on any failure both
become `None`, otherwise they are read from the response. -/
def sleepFields (resp : Option SleepData) : Option Int × Option Int :=
  match resp with
  | none => (none, none)
  | some sd => (sd.overallScore, sd.sleepTimeSeconds)

/-- Body battery, lines 192-197: `body_battery_data[0].get('charged') if
body_battery_data else None`, with any exception giving `None`. -/
def bodyBatteryField (resp : Option (List BodyBatteryEntry)) : Option Int :=
  match resp with
  | none => none
  | some [] => none
  | some (e :: _) => e.charged

/-- Respiration, lines 199-204. -/
def respirationField (resp : Option RespirationData) : Option Int :=
  match resp with
  | none => none
  | some d => d.avgWakingRespirationValue

/-- SpO2, lines 206-211. -/
def spo2Field (resp : Option Spo2Data) : Option Int :=
  match resp with
  | none => none
  | some d => d.averageSpo2

/-- The per-date fetch of lines 176-225.  `get_stats` and `get_heart_rates`
are *not* individually guarded in the source: an exception there escapes to
the outer per-date `except` (line 235) and the date produces no record
(`none`).  The sleep / body battery / respiration / SpO2 calls each sit in
their own `try`, degrading to `None` fields. -/
def fetchDaily (r : DailyRemote) : Option DailyData :=
  match r.get_stats with
  | none => none
  | some stats =>
    match r.get_heart_rates with
    | none => none
    | some hr_data =>
      let sl := sleepFields r.get_sleep_data
      some {
        steps := stats.totalSteps
        distance_meters := stats.totalDistanceMeters
        resting_hr := hr_data.restingHeartRate
        max_hr := hr_data.maxHeartRate
        sleep_duration := sl.2
        sleep_score := sl.1
        body_battery := bodyBatteryField r.get_body_battery
        respiration := respirationField r.get_respiration_data
        spo2 := spo2Field r.get_pulse_ox
        vo2_max := stats.vo2Max }

/-- One iteration of the daily loop (lines 173-238) acting on the store: a
fetched record is upserted via `save_daily_health`; a date whose fetch
raised is logged and skipped, leaving the store untouched. -/
def dailyStep (env : String → DailyRemote) (s : DailyStore) (date_str : String) : DailyStore :=
  match fetchDaily (env date_str) with
  | none => s
  | some d => save_daily_health s date_str d

/-- The daily loop over the requested date range, oldest first. -/
def dailyLoop (env : String → DailyRemote) (dates : List String) (s : DailyStore) : DailyStore :=
  dates.foldl (dailyStep env) s

/-! ### Activity side -/

/-- `needle.isPrefixOf hay` on character lists. -/
def charsStart : List Char → List Char → Bool
  | [], _ => true
  | _ :: _, [] => false
  | c :: cs, d :: ds => c == d && charsStart cs ds

/-- Substring test on character lists: does `needle` occur inside `hay`? -/
def charsSub (needle : List Char) : List Char → Bool
  | [] => charsStart needle []
  | d :: ds => charsStart needle (d :: ds) || charsSub needle ds

/-- ASCII lowering of one character, which is how `str.lower()` acts on the
ASCII activity-type keys. -/
def pyLowerChar (c : Char) : Char :=
  if 65 ≤ c.toNat ∧ c.toNat ≤ 90 then Char.ofNat (c.toNat + 32) else c

/-- Python `needle in hay.lower()` for the fixed lowercase needles the
classifier uses. -/
def pyInLower (needle hay : String) : Bool :=
  charsSub needle.toList (hay.toList.map pyLowerChar)

/-- One element of the `client.get_activities(0, 100)` list (the keys the
code reads).  The code stringifies `activityId`; here ids are `String`
throughout. -/
structure ActivitySummary where
  activityId : String
  typeKey : Option String
  startTimeLocal : Option String
  duration : Option Int
  distance : Option Int
  averageHR : Option Int
  maxHR : Option Int
  calories : Option Int
  averageSpeed : Option Int
  maxSpeed : Option Int
  elevationGain : Option Int
  elevationLoss : Option Int
deriving DecidableEq, Repr

/-- Response of `client.get_activity(activity_id)` (the keys read by sport
metric extraction). -/
structure ActivityDetails where
  strokes : Option Int
  avgStrokeDistance : Option Int
  swolfAverage : Option Int
  averageBikingCadenceInRevPerMinute : Option Int
  maxBikingCadenceInRevPerMinute : Option Int
  avgPower : Option Int
  averageStrokeRate : Option Int
  maxStrokeRate : Option Int
deriving DecidableEq, Repr

/-- Response of `client.get_activity_hr_in_timezones`: `heartRateValues` is
a list of entries, each entry a possibly-`None` list of
`(timestamp, hr_value)` pairs with possibly-`None` values. -/
structure HrDetail where
  heartRateValues : Option (List (Option (List (Int × Option Int))))
deriving DecidableEq, Repr

/-- The remote endpoints consulted per activity.  `get_activity_hr` has two
layers: the outer `none` is the call raising (caught at line 301), the
inner `none` is a falsy (`None`/empty) `hr_detail` response. -/
structure ActivityRemote where
  get_activity : Option ActivityDetails
  get_activity_hr : Option (Option HrDetail)
deriving DecidableEq, Repr

/-- One row of `activities` keyed on the unique `activity_id`. -/
structure ActivityRecord where
  activity_type : String
  start_time : Option String
  duration_seconds : Option Int
  distance_meters : Option Int
  average_hr : Option Int
  max_hr : Option Int
  calories : Option Int
  average_speed : Option Int
  max_speed : Option Int
  elevation_gain : Option Int
  elevation_loss : Option Int
deriving DecidableEq, Repr

/-- The `activities` table (UNIQUE `activity_id`). -/
abbrev ActStore := List (String × ActivityRecord)

/-- The `activity_heart_rate` table: bag of (activity_id, timestamp, hr). -/
abbrev HrStore := List (String × Int × Int)

/-- The `sport_metrics` table: bag of (activity_id, metric_name, value). -/
abbrev MetricStore := List (String × String × Option Int)

/-- `save_activity`: `INSERT OR REPLACE INTO activities` keyed on the
unique `activity_id`. -/
def save_activity (s : ActStore) (id : String) (r : ActivityRecord) : ActStore :=
  (id, r) :: s.filter (fun p => p.1 != id)

/-- Lookup of the stored activity record. -/
def lookupAct (s : ActStore) (id : String) : Option ActivityRecord :=
  (s.find? (fun p => p.1 == id)).map (fun p => p.2)

/-- `save_activity_heart_rate` (lines 95-114): delete every existing row of
this activity, then insert the new data points. -/
def save_activity_heart_rate (s : HrStore) (id : String) (pts : List (Int × Int)) : HrStore :=
  s.filter (fun row => row.1 != id) ++ pts.map (fun p => (id, p.1, p.2))

/-- `save_sport_metrics` (lines 116-135): delete existing metrics of this
activity, then insert the new name/value pairs. -/
def save_sport_metrics (s : MetricStore) (id : String) (ms : List (String × Option Int)) :
    MetricStore :=
  s.filter (fun row => row.1 != id) ++ ms.map (fun m => (id, m.1, m.2))

/-- Rows of `activity_heart_rate` belonging to one activity
(SQL `WHERE activity_id = ?`). -/
def hrRowsFor (s : HrStore) (id : String) : HrStore :=
  s.filter (fun row => row.1 == id)

/-- Rows of `sport_metrics` belonging to one activity. -/
def metricRowsFor (s : MetricStore) (id : String) : MetricStore :=
  s.filter (fun row => row.1 == id)

/-- The `activity_data` dict of lines 260-273, read from the summary. -/
def mkActivityRecord (a : ActivitySummary) : ActivityRecord :=
  { activity_type := a.typeKey.getD "unknown"
    start_time := a.startTimeLocal
    duration_seconds := a.duration
    distance_meters := a.distance
    average_hr := a.averageHR
    max_hr := a.maxHR
    calories := a.calories
    average_speed := a.averageSpeed
    max_speed := a.maxSpeed
    elevation_gain := a.elevationGain
    elevation_loss := a.elevationLoss }

/-- The per-pair filter of lines 289-294: keep `(timestamp, hr)` only when
the heart-rate value is truthy (neither `None` nor `0`). -/
def hrPointOf (p : Int × Option Int) : Option (Int × Int) :=
  match p.2 with
  | none => none
  | some v => if v != 0 then some (p.1, v) else none

/-- The per-entry step of the loop of lines 287-294: a falsy entry
contributes nothing, a list entry contributes its truthy pairs in order. -/
def hrFoldStep (acc : List (Int × Int)) (entry : Option (List (Int × Option Int))) :
    List (Int × Int) :=
  match entry with
  | none => acc
  | some pairs => acc ++ pairs.filterMap hrPointOf

/-- Parsing of `hr_detail` into `hr_data_points` (lines 284-294): skip a
falsy detail, a missing `heartRateValues` key, falsy entries, and falsy
(`None` or `0`) heart-rate values. -/
def parseHrPoints (resp : Option HrDetail) : List (Int × Int) :=
  match resp with
  | none => []
  | some detail =>
    match detail.heartRateValues with
    | none => []
    | some entries => entries.foldl hrFoldStep []

/-- Sport metric extraction (lines 304-322): fixed families selected by
case-insensitive substring match on the activity type; metric keys are
inserted even when the detail value is `None`. -/
def extractSportMetrics (activity_type : String) (details : ActivityDetails) :
    List (String × Option Int) :=
  (if pyInLower "lap_swimming" activity_type || pyInLower "open_water" activity_type then
    [("strokes", details.strokes),
     ("avg_stroke_distance", details.avgStrokeDistance),
     ("swolf", details.swolfAverage)]
  else []) ++
  (if pyInLower "cycling" activity_type then
    [("avg_cadence", details.averageBikingCadenceInRevPerMinute),
     ("max_cadence", details.maxBikingCadenceInRevPerMinute),
     ("avg_power", details.avgPower)]
  else []) ++
  (if pyInLower "rowing" activity_type then
    [("avg_stroke_rate", details.averageStrokeRate),
     ("max_stroke_rate", details.maxStrokeRate)]
  else [])

/-- The four tables of `health.db` together. -/
structure SyncState where
  daily : DailyStore
  acts : ActStore
  hr : HrStore
  metrics : MetricStore
deriving DecidableEq, Repr

/-- A write performed by the persistence layer, in program order. -/
inductive PersistEvent where
  | upsertDaily (date : String)
  | upsertActivity (id : String)
  | replaceHr (id : String)
  | replaceMetrics (id : String)
deriving DecidableEq, Repr

/-- Processing of one activity (lines 251-332), returning the new state and
the persistence events it performed in order.  A raising `get_activity`
escapes to the per-activity `except` (line 331) before anything is saved,
skipping the activity.  A raising `get_activity_hr` is caught at line 301
after the record was already saved.  The heart-rate replace runs only for a
non-empty point list; the metrics replace only for a non-empty metric
dict. -/
def processActivity (actEnv : String → ActivityRemote) (st : SyncState)
    (a : ActivitySummary) : SyncState × List PersistEvent :=
  let activity_id := a.activityId
  let activity_type := a.typeKey.getD "unknown"
  match (actEnv activity_id).get_activity with
  | none => (st, [])
  | some details =>
    let st1 := { st with acts := save_activity st.acts activity_id (mkActivityRecord a) }
    let hrStep : SyncState × List PersistEvent :=
      match (actEnv activity_id).get_activity_hr with
      | none => (st1, [])
      | some resp =>
        let pts := parseHrPoints resp
        if pts.isEmpty then (st1, [])
        else ({ st1 with hr := save_activity_heart_rate st1.hr activity_id pts },
              [PersistEvent.replaceHr activity_id])
    let sport_metrics := extractSportMetrics activity_type details
    let mStep : SyncState × List PersistEvent :=
      if sport_metrics.isEmpty then (hrStep.1, [])
      else ({ hrStep.1 with
                metrics := save_sport_metrics hrStep.1.metrics activity_id sport_metrics },
            [PersistEvent.replaceMetrics activity_id])
    (mStep.1, PersistEvent.upsertActivity activity_id :: hrStep.2 ++ mStep.2)

/-- The heart-rate points obtained for an activity id: empty when the
detail call raises, otherwise the parse of its response. -/
def ptsOf (actEnv : String → ActivityRemote) (id : String) : List (Int × Int) :=
  match (actEnv id).get_activity_hr with
  | none => []
  | some resp => parseHrPoints resp

/-- The activity loop (state part): each activity of the fetched list is
processed in order. -/
def activityLoop (actEnv : String → ActivityRemote) (acts : List ActivitySummary)
    (st : SyncState) : SyncState :=
  acts.foldl (fun s a => (processActivity actEnv s a).1) st

/-! ### Top-level run -/

/-- Reason a `client.login()` call raised. -/
inductive LoginErr where
  | authExpired
  | network
  | serverError
  | timeout
deriving DecidableEq, Repr

/-- A remote call performed during a run, in program order. -/
inductive RemoteCall where
  | login
  | stats (date : String)
  | heartRates (date : String)
  | sleep (date : String)
  | bodyBattery (date : String)
  | respiration (date : String)
  | pulseOx (date : String)
  | getActivities
  | getActivity (id : String)
  | getActivityHr (id : String)
deriving DecidableEq, Repr

/-- The whole environment a run sees: the two credential environment
variables (`none` = unset), the outcome of `client.login()`, and the remote
data behind every endpoint.  `activities` is the `get_activities` response
(`none` = the call raised, caught at line 334). -/
structure RunEnv where
  email : Option String
  password : Option String
  login : Except LoginErr Unit
  dailyEnv : String → DailyRemote
  dates : List String
  activities : Option (List ActivitySummary)
  actEnv : String → ActivityRemote

/-- Python truthiness of an optional environment string: unset and `""` are
falsy (`if not GARMIN_EMAIL or not GARMIN_PASSWORD`). -/
def envTruthy : Option String → Bool
  | none => false
  | some s => !(s == "")

/-- How a run terminated. -/
inductive RunOutcome where
  | configExit
  | loginExit
  | completed
deriving DecidableEq, Repr

/-- Termination status of `fetch_garmin_data`: `sys.exit(1)` at the
credential check (lines 140-143), `sys.exit(1)` on any login exception
(lines 151-157) regardless of its kind, otherwise the run completes. -/
def runOutcome (env : RunEnv) : RunOutcome :=
  if !(envTruthy env.email && envTruthy env.password) then RunOutcome.configExit
  else
    match env.login with
    | Except.error _ => RunOutcome.loginExit
    | Except.ok _ => RunOutcome.completed

/-- Remote calls made for one date of the daily loop: an exception from
`get_stats` skips the rest of the date body; an exception from
`get_heart_rates` likewise; the four guarded calls each run once after
both succeed. -/
def dailyDateCalls (r : DailyRemote) (d : String) : List RemoteCall :=
  RemoteCall.stats d ::
    match r.get_stats with
    | none => []
    | some _ =>
      RemoteCall.heartRates d ::
        match r.get_heart_rates with
        | none => []
        | some _ =>
          [RemoteCall.sleep d, RemoteCall.bodyBattery d,
           RemoteCall.respiration d, RemoteCall.pulseOx d]

/-- Remote calls made for one activity: `get_activity` first; only when it
returns does the heart-rate detail call happen. -/
def activityCalls (actEnv : String → ActivityRemote) (a : ActivitySummary) :
    List RemoteCall :=
  RemoteCall.getActivity a.activityId ::
    match (actEnv a.activityId).get_activity with
    | none => []
    | some _ => [RemoteCall.getActivityHr a.activityId]

/-- Every remote call a run attempts, in program order.  Nothing is called
when the credential check fails; after a failed login nothing further is
called. -/
def runCalls (env : RunEnv) : List RemoteCall :=
  if !(envTruthy env.email && envTruthy env.password) then []
  else
    RemoteCall.login ::
      match env.login with
      | Except.error _ => []
      | Except.ok _ =>
        (env.dates.flatMap (fun d => dailyDateCalls (env.dailyEnv d) d)) ++
          RemoteCall.getActivities ::
            match env.activities with
            | none => []
            | some acts => acts.flatMap (fun a => activityCalls env.actEnv a)

/-- Final database state of a run starting from `init`: unchanged on either
abort path, otherwise the daily loop then the activity loop. -/
def runFinalState (env : RunEnv) (init : SyncState) : SyncState :=
  if !(envTruthy env.email && envTruthy env.password) then init
  else
    match env.login with
    | Except.error _ => init
    | Except.ok _ =>
      let st1 := { init with daily := dailyLoop env.dailyEnv env.dates init.daily }
      match env.activities with
      | none => st1
      | some acts => activityLoop env.actEnv acts st1

/-- `fetch_garmin_data` as observed through outcome, remote calls and final
stored state. -/
def fetch_garmin_data (env : RunEnv) (init : SyncState) :
    RunOutcome × List RemoteCall × SyncState :=
  (runOutcome env, runCalls env, runFinalState env init)

/-! ### Derived views of a run, used to characterise the loops -/

/-- The (date, record) pairs the daily loop upserts: one per date whose
fetch succeeds. -/
def okPairs (env : String → DailyRemote) (dates : List String) :
    List (String × DailyData) :=
  dates.filterMap (fun d => (fetchDaily (env d)).map (fun v => (d, v)))

/-- The (id, record) pairs the activity loop upserts: one per activity
whose detail fetch succeeds. -/
def actOkPairs (actEnv : String → ActivityRemote) (acts : List ActivitySummary) :
    List (String × ActivityRecord) :=
  acts.filterMap (fun a =>
    ((actEnv a.activityId).get_activity).map (fun _ => (a.activityId, mkActivityRecord a)))

/-- The heart-rate rows contributed by one activity. -/
def hrBlockOf (actEnv : String → ActivityRemote) (a : ActivitySummary) : HrStore :=
  match (actEnv a.activityId).get_activity with
  | none => []
  | some _ => (ptsOf actEnv a.activityId).map (fun p => (a.activityId, p.1, p.2))

/-- The activity ids whose heart-rate series gets replaced (detail fetched,
non-empty point list). -/
def hrReplacedIds (actEnv : String → ActivityRemote) (acts : List ActivitySummary) :
    List String :=
  acts.filterMap (fun a =>
    match (actEnv a.activityId).get_activity with
    | none => none
    | some _ => if ptsOf actEnv a.activityId = [] then none else some a.activityId)

/-- The sport-metric rows contributed by one activity. -/
def smBlockOf (actEnv : String → ActivityRemote) (a : ActivitySummary) : MetricStore :=
  match (actEnv a.activityId).get_activity with
  | none => []
  | some details =>
    (extractSportMetrics (a.typeKey.getD "unknown") details).map
      (fun m => (a.activityId, m.1, m.2))

/-- The activity ids whose sport metrics get replaced. -/
def smReplacedIds (actEnv : String → ActivityRemote) (acts : List ActivitySummary) :
    List String :=
  acts.filterMap (fun a =>
    match (actEnv a.activityId).get_activity with
    | none => none
    | some details =>
      if extractSportMetrics (a.typeKey.getD "unknown") details = [] then none
      else some a.activityId)

/-! ### Concrete scenarios used by counterexamples and witnesses -/

/-- A remote snapshot for one date on which every daily endpoint returns
data. -/
def goodRemote : DailyRemote :=
  { get_stats := some { totalSteps := some 1000, totalDistanceMeters := some 2000,
                        vo2Max := some 40 },
    get_heart_rates := some { restingHeartRate := some 60, maxHeartRate := some 150 },
    get_sleep_data := some { overallScore := some 80, sleepTimeSeconds := some 28800 },
    get_body_battery := some [{ charged := some 50 }],
    get_respiration_data := some { avgWakingRespirationValue := some 14 },
    get_pulse_ox := some { averageSpo2 := some 97 } }

/-- Same snapshot except that only the heart-rate endpoint raises. -/
def hrFailRemote : DailyRemote :=
  { goodRemote with get_heart_rates := none }

/-- Same snapshot except that only the daily-stats endpoint raises. -/
def statsFailRemote : DailyRemote :=
  { goodRemote with get_stats := none }

/-- Same snapshot except that only the sleep endpoint raises. -/
def sleepFailRemote : DailyRemote :=
  { goodRemote with get_sleep_data := none }

/-- A remote on which every daily endpoint raises. -/
def allFailRemote : DailyRemote :=
  { get_stats := none, get_heart_rates := none, get_sleep_data := none,
    get_body_battery := none, get_respiration_data := none, get_pulse_ox := none }

/-- A per-activity remote on which both endpoints raise. -/
def noActivityRemote : ActivityRemote :=
  { get_activity := none, get_activity_hr := none }

/-- The empty database. -/
def emptyDB : SyncState :=
  { daily := [], acts := [], hr := [], metrics := [] }

/-- Present but malformed credentials: both strings are non-empty, so the
check of lines 140-143 passes and `client.login()` is attempted (and
raises). -/
def malformedCredEnv : RunEnv :=
  { email := some "not-an-email", password := some "x",
    login := Except.error LoginErr.authExpired,
    dailyEnv := fun _ => allFailRemote,
    dates := ["2024-01-01"],
    activities := none,
    actEnv := fun _ => noActivityRemote }

/-- Well-formed credentials, with `client.login()` raising a transient
network error. -/
def transientLoginEnv : RunEnv :=
  { email := some "user@example.com", password := some "hunter2",
    login := Except.error LoginErr.network,
    dailyEnv := fun _ => allFailRemote,
    dates := ["2024-01-01"],
    activities := none,
    actEnv := fun _ => noActivityRemote }

/-- The same run with `client.login()` raising the auth-specific
expired-credentials error. -/
def authLoginEnv : RunEnv :=
  { transientLoginEnv with login := Except.error LoginErr.authExpired }

/-- A run environment with the email credential unset. -/
def missingCredEnv : RunEnv :=
  { transientLoginEnv with email := none }

/-- An activity summary as listed by `get_activities`. -/
def rideSummary : ActivitySummary :=
  { activityId := "42", typeKey := some "road_cycling",
    startTimeLocal := some "2024-01-01 10:00:00",
    duration := some 3600, distance := some 10000, averageHR := some 120, maxHR := some 150,
    calories := some 500, averageSpeed := some 3, maxSpeed := some 5,
    elevationGain := some 10, elevationLoss := some 10 }

/-- Activity details with cycling metrics present. -/
def rideDetails : ActivityDetails :=
  { strokes := none, avgStrokeDistance := none, swolfAverage := none,
    averageBikingCadenceInRevPerMinute := some 85, maxBikingCadenceInRevPerMinute := some 95,
    avgPower := some 200, averageStrokeRate := none, maxStrokeRate := none }

/-- Per-activity remote on which `get_activity` raises even though the
heart-rate detail endpoint has data. -/
def detailFailActRemote : ActivityRemote :=
  { get_activity := none,
    get_activity_hr := some (some { heartRateValues := some [some [(1, some 100)]] }) }

/-- Per-activity remote whose heart-rate series carries only null/zero
values. -/
def zeroHrActRemote : ActivityRemote :=
  { get_activity := some rideDetails,
    get_activity_hr := some (some { heartRateValues :=
                                      some [some [(1, some 0), (2, none)], none] }) }

/-- Per-activity remote on which both endpoints return data. -/
def okActRemote : ActivityRemote :=
  { get_activity := some rideDetails,
    get_activity_hr := some (some { heartRateValues :=
                                      some [some [(1, some 100), (2, some 0)], none,
                                            some [(3, some 110)]] }) }

/-- A fully successful run environment over two dates and one activity. -/
def happyEnv : RunEnv :=
  { email := some "user@example.com", password := some "hunter2",
    login := Except.ok (),
    dailyEnv := fun _ => goodRemote,
    dates := ["2024-01-01", "2024-01-02"],
    activities := some [rideSummary],
    actEnv := fun _ => okActRemote }

/-! ### Generic lemmas about the list-modelled tables -/

section StoreLemmas

variable {α : Type}

theorem find?_key_filter (s : List (String × α)) (k q : String) (h : q ≠ k) :
    (s.filter (fun p => p.1 != k)).find? (fun p => p.1 == q)
      = s.find? (fun p => p.1 == q) := by
  induction s with
  | nil => rfl
  | cons p t ih =>
    by_cases hp : p.1 = k
    · have hkq : (k == q) = false := by
        simp
        exact fun e => h e.symm
      simp [List.filter_cons, hp, List.find?_cons, hkq, ih]
    · by_cases hpq : p.1 = q
      · simp [List.filter_cons, hp, List.find?_cons, hpq, h]
      · simp [List.filter_cons, hp, List.find?_cons, hpq, ih]

theorem filter_key_idem (s : List (String × α)) (k : String) :
    (s.filter (fun p => p.1 != k)).filter (fun p => p.1 != k)
      = s.filter (fun p => p.1 != k) := by
  simp [List.filter_filter]

theorem filter_hit_after_miss (s : List (String × α)) (k : String) :
    (s.filter (fun row => row.1 != k)).filter (fun row => row.1 == k) = [] := by
  induction s with
  | nil => rfl
  | cons p t ih =>
    by_cases hp : p.1 = k
    · simp [List.filter_cons, hp, ih]
    · simp [List.filter_cons, hp, ih]

theorem filter_hit_map_keep {β γ : Type} (k : String) (f : β → γ) (l : List β) :
    (l.map (fun b => (k, f b))).filter (fun row => row.1 == k)
      = l.map (fun b => (k, f b)) := by
  induction l with
  | nil => rfl
  | cons b t ih => simp [List.filter_cons, ih]

theorem filter_miss_map_drop {β γ : Type} (k : String) (f : β → γ) (l : List β) :
    (l.map (fun b => (k, f b))).filter (fun row => row.1 != k) = [] := by
  induction l with
  | nil => rfl
  | cons b t ih => simp [List.filter_cons, ih]

theorem filter_idem {α : Type} (p : α → Bool) (s : List α) :
    (s.filter p).filter p = s.filter p := by
  simp [List.filter_filter]

theorem filter_notin_map_keep {β γ : Type} (ks : List String) (k : String) (f : β → γ)
    (l : List β) (h : ks.contains k = false) :
    (l.map (fun b => (k, f b))).filter (fun row => !(ks.contains row.1))
      = l.map (fun b => (k, f b)) := by
  have htrue : (!(ks.contains k)) = true := by
    rw [h]
    rfl
  induction l with
  | nil => rfl
  | cons b t ih =>
    simp only [List.map_cons, List.filter_cons, htrue, if_true, ih]

theorem filter_map_key_of_pred {β γ : Type} (pred : String → Bool) (k : String) (f : β → γ)
    (l : List β) (h : pred k = true) :
    (l.map (fun b => (k, f b))).filter (fun row => pred row.1)
      = l.map (fun b => (k, f b)) := by
  induction l with
  | nil => rfl
  | cons b t ih => simp [List.filter_cons, h, ih]

theorem filter_ne_then_notin {α : Type} (s : List (String × α)) (k : String)
    (ks : List String) :
    (s.filter (fun p => p.1 != k)).filter (fun p => !(ks.contains p.1))
      = s.filter (fun p => !((k :: ks).contains p.1)) := by
  rw [List.filter_filter]
  apply List.filter_congr
  intro p _
  by_cases hp : p.1 = k
  · simp [hp, List.contains_cons]
  · by_cases hm : p.1 ∈ ks <;> simp [hp, hm, List.contains_cons]

end StoreLemmas

theorem processActivity_detail_none (actEnv : String → ActivityRemote) (st : SyncState)
    (a : ActivitySummary) (hg : (actEnv a.activityId).get_activity = none) :
    processActivity actEnv st a = (st, []) := by
  simp [processActivity, hg]

theorem processActivity_detail_some (actEnv : String → ActivityRemote) (st : SyncState)
    (a : ActivitySummary) (details : ActivityDetails)
    (hg : (actEnv a.activityId).get_activity = some details) :
    processActivity actEnv st a =
      ({ daily := st.daily,
         acts := save_activity st.acts a.activityId (mkActivityRecord a),
         hr := if ptsOf actEnv a.activityId = [] then st.hr
               else save_activity_heart_rate st.hr a.activityId (ptsOf actEnv a.activityId),
         metrics :=
           if extractSportMetrics (a.typeKey.getD "unknown") details = [] then st.metrics
           else save_sport_metrics st.metrics a.activityId
                  (extractSportMetrics (a.typeKey.getD "unknown") details) },
       PersistEvent.upsertActivity a.activityId ::
         (if ptsOf actEnv a.activityId = [] then []
          else [PersistEvent.replaceHr a.activityId]) ++
         (if extractSportMetrics (a.typeKey.getD "unknown") details = [] then []
          else [PersistEvent.replaceMetrics a.activityId])) := by
  simp only [processActivity, hg]
  cases hh : (actEnv a.activityId).get_activity_hr with
  | none =>
    by_cases hm : extractSportMetrics (a.typeKey.getD "unknown") details = []
    · simp [ptsOf, hh, hm]
    · simp [ptsOf, hh, hm]
  | some resp =>
    by_cases hp : parseHrPoints resp = []
    · by_cases hm : extractSportMetrics (a.typeKey.getD "unknown") details = []
      · simp [ptsOf, hh, hp, hm]
      · simp [ptsOf, hh, hp, hm]
    · by_cases hm : extractSportMetrics (a.typeKey.getD "unknown") details = []
      · simp [ptsOf, hh, hp, hm, List.isEmpty_iff]
      · simp [ptsOf, hh, hp, hm, List.isEmpty_iff]

theorem lookupDaily_save_self (s : DailyStore) (d : String) (v : DailyData) :
    lookupDaily (save_daily_health s d v) d = some v := by
  simp [lookupDaily, save_daily_health, List.find?_cons]

theorem lookupDaily_save_ne (s : DailyStore) (d q : String) (v : DailyData) (h : q ≠ d) :
    lookupDaily (save_daily_health s d v) q = lookupDaily s q := by
  have hdq : (d == q) = false := by
    simp
    exact fun e => h e.symm
  simp [lookupDaily, save_daily_health, List.find?_cons, hdq, find?_key_filter _ _ _ h]

theorem lookupAct_save_self (s : ActStore) (id : String) (r : ActivityRecord) :
    lookupAct (save_activity s id r) id = some r := by
  simp [lookupAct, save_activity, List.find?_cons]

theorem lookupAct_save_ne (s : ActStore) (id q : String) (r : ActivityRecord) (h : q ≠ id) :
    lookupAct (save_activity s id r) q = lookupAct s q := by
  have hdq : (id == q) = false := by
    simp
    exact fun e => h e.symm
  simp [lookupAct, save_activity, List.find?_cons, hdq, find?_key_filter _ _ _ h]

/-- C4.
For every activity id and every non-empty new sample list, `save_activity_heart_rate`
leaves the rows stored for that activity equal to exactly the new sample list
(old rows are deleted first), running it twice equals running it once, and the
stored row count equals the new sample count (1500 twice gives 1500, not 3000). -/
theorem C4_hr_replace_exact (s : HrStore) (id : String) (pts : List (Int × Int))
    (hne : pts ≠ []) :
    hrRowsFor (save_activity_heart_rate s id pts) id
        = pts.map (fun p => (id, p.1, p.2))
    ∧ save_activity_heart_rate (save_activity_heart_rate s id pts) id pts
        = save_activity_heart_rate s id pts
    ∧ (hrRowsFor (save_activity_heart_rate s id pts) id).length = pts.length := by
  have hkeep := filter_hit_map_keep id (fun p : Int × Int => (p.1, p.2)) pts
  have hdrop := filter_miss_map_drop id (fun p : Int × Int => (p.1, p.2)) pts
  have hgone := filter_hit_after_miss s id
  refine ⟨?_, ?_, ?_⟩
  · simp only [hrRowsFor, save_activity_heart_rate, List.filter_append, hkeep, hgone,
      List.nil_append]
  · simp only [save_activity_heart_rate, List.filter_append, hdrop, filter_key_idem,
      List.append_nil]
  · simp only [hrRowsFor, save_activity_heart_rate, List.filter_append, hkeep, hgone,
      List.nil_append, List.length_map]

/-- Witness for C4 at a concrete store and sample list. -/
theorem C4_witness :
    ([((5 : Int), (100 : Int)), (6, 101)] ≠ ([] : List (Int × Int)))
    ∧ (hrRowsFor (save_activity_heart_rate [("a", 1, 2)] "a" [(5, 100), (6, 101)]) "a"
          = [(5, 100), (6, 101)].map (fun p => ("a", p.1, p.2))
      ∧ save_activity_heart_rate
            (save_activity_heart_rate [("a", 1, 2)] "a" [(5, 100), (6, 101)])
            "a" [(5, 100), (6, 101)]
          = save_activity_heart_rate [("a", 1, 2)] "a" [(5, 100), (6, 101)]
      ∧ (hrRowsFor (save_activity_heart_rate [("a", 1, 2)] "a" [(5, 100), (6, 101)]) "a").length
          = [((5 : Int), (100 : Int)), (6, 101)].length) :=
  ⟨by decide, C4_hr_replace_exact [("a", 1, 2)] "a" [(5, 100), (6, 101)] (by decide)⟩

/-- C6.
Sport metric extraction is a case-insensitive substring classification of
the activity type: a type containing "cycling" yields the cadence and power
metric keys, a type containing "rowing" yields the stroke-rate keys, and an
activity matching no known family yields an empty metric set and leaves the
stored sport metrics untouched (zero stored metrics). -/
theorem C6_sport_classification (t : String) (d : ActivityDetails) :
    (pyInLower "cycling" t = true →
      ("avg_cadence", d.averageBikingCadenceInRevPerMinute) ∈ extractSportMetrics t d
      ∧ ("max_cadence", d.maxBikingCadenceInRevPerMinute) ∈ extractSportMetrics t d
      ∧ ("avg_power", d.avgPower) ∈ extractSportMetrics t d)
    ∧ (pyInLower "rowing" t = true →
      ("avg_stroke_rate", d.averageStrokeRate) ∈ extractSportMetrics t d
      ∧ ("max_stroke_rate", d.maxStrokeRate) ∈ extractSportMetrics t d)
    ∧ (pyInLower "lap_swimming" t = false → pyInLower "open_water" t = false →
        pyInLower "cycling" t = false → pyInLower "rowing" t = false →
        extractSportMetrics t d = []
        ∧ ∀ (actEnv : String → ActivityRemote) (st : SyncState) (a : ActivitySummary),
            a.typeKey = some t →
            (processActivity actEnv st a).1.metrics = st.metrics) := by
  refine ⟨?_, ?_, ?_⟩
  · intro hc
    simp [extractSportMetrics, hc]
  · intro hr
    simp [extractSportMetrics, hr]
  · intro h1 h2 h3 h4
    have hempty : extractSportMetrics t d = [] := by
      simp [extractSportMetrics, h1, h2, h3, h4]
    refine ⟨hempty, ?_⟩
    intro actEnv st a ha
    cases hg : (actEnv a.activityId).get_activity with
    | none => rw [processActivity_detail_none actEnv st a hg]
    | some details =>
      have hm : extractSportMetrics (a.typeKey.getD "unknown") details = [] := by
        rw [ha, Option.getD_some]
        simp [extractSportMetrics, h1, h2, h3, h4]
      rw [processActivity_detail_some actEnv st a details hg]
      simp [hm]

/-- Witness for C6 at concrete activity types of each branch. -/
theorem C6_witness :
    (pyInLower "cycling" "indoor_cycling" = true
      ∧ ("avg_cadence", rideDetails.averageBikingCadenceInRevPerMinute)
          ∈ extractSportMetrics "indoor_cycling" rideDetails)
    ∧ (pyInLower "rowing" "indoor_rowing" = true
      ∧ ("avg_stroke_rate", rideDetails.averageStrokeRate)
          ∈ extractSportMetrics "indoor_rowing" rideDetails)
    ∧ extractSportMetrics "trail_running" rideDetails = [] :=
  ⟨⟨by decide, ((C6_sport_classification "indoor_cycling" rideDetails).1 (by decide)).1⟩,
   ⟨by decide, ((C6_sport_classification "indoor_rowing" rideDetails).2.1 (by decide)).1⟩,
   ((C6_sport_classification "trail_running" rideDetails).2.2 (by decide) (by decide)
      (by decide) (by decide)).1⟩

/-- C9.
Every metric column of a persisted record is the verbatim source value: the
record is stored unchanged by `save_daily_health`, a metric whose fetch came
back absent is `none` (explicit unknown, never zero), and a stored zero can
only come from the source genuinely reporting zero. -/
theorem C9_absent_null (r : DailyRemote) (rec : DailyData) (s : DailyStore) (d : String)
    (h : fetchDaily r = some rec) :
    lookupDaily (save_daily_health s d rec) d = some rec
    ∧ (r.get_sleep_data = none → rec.sleep_score = none ∧ rec.sleep_duration = none)
    ∧ (r.get_body_battery = none ∨ r.get_body_battery = some [] → rec.body_battery = none)
    ∧ (r.get_respiration_data = none → rec.respiration = none)
    ∧ (r.get_pulse_ox = none → rec.spo2 = none)
    ∧ (∀ st, r.get_stats = some st →
        (st.totalSteps = none → rec.steps = none)
        ∧ (rec.steps = some 0 → st.totalSteps = some 0)
        ∧ (st.totalDistanceMeters = none → rec.distance_meters = none)
        ∧ (rec.distance_meters = some 0 → st.totalDistanceMeters = some 0)
        ∧ (st.vo2Max = none → rec.vo2_max = none)
        ∧ (rec.vo2_max = some 0 → st.vo2Max = some 0))
    ∧ (∀ hd, r.get_heart_rates = some hd →
        (hd.restingHeartRate = none → rec.resting_hr = none)
        ∧ (rec.resting_hr = some 0 → hd.restingHeartRate = some 0)
        ∧ (hd.maxHeartRate = none → rec.max_hr = none)
        ∧ (rec.max_hr = some 0 → hd.maxHeartRate = some 0))
    ∧ (∀ sd, r.get_sleep_data = some sd →
        (sd.overallScore = none → rec.sleep_score = none)
        ∧ (rec.sleep_score = some 0 → sd.overallScore = some 0)
        ∧ (sd.sleepTimeSeconds = none → rec.sleep_duration = none)
        ∧ (rec.sleep_duration = some 0 → sd.sleepTimeSeconds = some 0))
    ∧ (rec.body_battery = some 0 →
        ∃ e rest, r.get_body_battery = some (e :: rest) ∧ e.charged = some 0)
    ∧ (∀ rd, r.get_respiration_data = some rd →
        (rd.avgWakingRespirationValue = none → rec.respiration = none)
        ∧ (rec.respiration = some 0 → rd.avgWakingRespirationValue = some 0))
    ∧ (∀ od, r.get_pulse_ox = some od →
        (od.averageSpo2 = none → rec.spo2 = none)
        ∧ (rec.spo2 = some 0 → od.averageSpo2 = some 0)) := by
  cases hs : r.get_stats with
  | none => exact absurd h (by simp [fetchDaily, hs])
  | some st0 =>
    cases hh : r.get_heart_rates with
    | none => exact absurd h (by simp [fetchDaily, hs, hh])
    | some hd0 =>
      simp only [fetchDaily, hs, hh, Option.some_inj] at h
      subst h
      refine ⟨lookupDaily_save_self _ _ _, ?_, ?_, ?_, ?_, ?_, ?_, ?_, ?_, ?_, ?_⟩
      · intro hsl
        simp [sleepFields, hsl]
      · rintro (hb | hb) <;> simp [bodyBatteryField, hb]
      · intro hr0
        simp [respirationField, hr0]
      · intro ho
        simp [spo2Field, ho]
      · intro st hst
        injection hst with e
        subst e
        refine ⟨?_, ?_, ?_, ?_, ?_, ?_⟩ <;> intro hz <;> simp_all
      · intro hd hhd
        injection hhd with e
        subst e
        refine ⟨?_, ?_, ?_, ?_⟩ <;> intro hz <;> simp_all
      · intro sd hsd
        refine ⟨?_, ?_, ?_, ?_⟩ <;> intro hz <;> simp_all [sleepFields]
      · intro hz
        revert hz
        cases hb : r.get_body_battery with
        | none => simp [bodyBatteryField, hb]
        | some l =>
          cases l with
          | nil => simp [bodyBatteryField, hb]
          | cons e rest =>
            intro hz
            simp only [bodyBatteryField, hb] at hz
            exact ⟨e, rest, rfl, hz⟩
      · intro rd hrd
        constructor <;> intro hz <;> simp_all [respirationField]
      · intro od hod
        constructor <;> intro hz <;> simp_all [spo2Field]

/-- Witness for C9 at a fully populated remote snapshot. -/
theorem C9_witness :
    fetchDaily goodRemote
        = some ⟨some 1000, some 2000, some 60, some 150, some 28800, some 80,
                some 50, some 14, some 97, some 40⟩
    ∧ lookupDaily (save_daily_health [] "2024-01-01"
          ⟨some 1000, some 2000, some 60, some 150, some 28800, some 80,
           some 50, some 14, some 97, some 40⟩) "2024-01-01"
        = some ⟨some 1000, some 2000, some 60, some 150, some 28800, some 80,
                some 50, some 14, some 97, some 40⟩ :=
  ⟨by decide,
   (C9_absent_null goodRemote
      ⟨some 1000, some 2000, some 60, some 150, some 28800, some 80,
       some 50, some 14, some 97, some 40⟩ [] "2024-01-01" (by decide)).1⟩

/-- C10.
When the heart-rate series fetched for an activity yields no valid data
point (the call raised, the detail is falsy, `heartRateValues` is missing,
or every value is null/zero), the heart-rate replace is not invoked: the
stored heart-rate rows — including those of a previous run for this very
activity — are left exactly as they were. -/
theorem C10_hr_frame (actEnv : String → ActivityRemote) (st : SyncState)
    (a : ActivitySummary) (h : ptsOf actEnv a.activityId = []) :
    (processActivity actEnv st a).1.hr = st.hr
    ∧ parseHrPoints none = []
    ∧ (∀ hd : HrDetail, hd.heartRateValues = none → parseHrPoints (some hd) = [])
    ∧ (∀ entries : List (Option (List (Int × Option Int))),
        (∀ l, some l ∈ entries → ∀ p, p ∈ l → p.2 = none ∨ p.2 = some 0) →
        parseHrPoints (some { heartRateValues := some entries }) = []) := by
  have aux : ∀ (entries : List (Option (List (Int × Option Int)))),
      (∀ l, some l ∈ entries → ∀ p, p ∈ l → p.2 = none ∨ p.2 = some 0) →
      ∀ acc : List (Int × Int), entries.foldl hrFoldStep acc = acc := by
    intro entries
    induction entries with
    | nil => intro _ acc; rfl
    | cons e t ih =>
      intro hfal acc
      cases e with
      | none =>
        rw [List.foldl_cons]
        exact ih (fun l hl => hfal l (List.mem_cons_of_mem _ hl)) acc
      | some pairs =>
        have hnil : pairs.filterMap hrPointOf = [] := by
          rw [List.filterMap_eq_nil_iff]
          intro p hp
          rcases hfal pairs (List.mem_cons_self _ _) p hp with hz | hz <;>
            simp [hrPointOf, hz]
        rw [List.foldl_cons]
        show List.foldl hrFoldStep (hrFoldStep acc (some pairs)) t = acc
        rw [show hrFoldStep acc (some pairs) = acc by simp [hrFoldStep, hnil]]
        exact ih (fun l hl => hfal l (List.mem_cons_of_mem _ hl)) acc
  refine ⟨?_, rfl, ?_, ?_⟩
  · cases hg : (actEnv a.activityId).get_activity with
    | none => rw [processActivity_detail_none actEnv st a hg]
    | some details =>
      rw [processActivity_detail_some actEnv st a details hg]
      simp [h]
  · intro hd hv
    simp [parseHrPoints, hv]
  · intro entries hfal
    simp only [parseHrPoints]
    exact aux entries hfal []

/-- Witness for C10: an all-falsy series leaves previously stored rows of
the same activity untouched. -/
theorem C10_witness :
    ptsOf (fun _ => zeroHrActRemote) rideSummary.activityId = []
    ∧ (processActivity (fun _ => zeroHrActRemote)
        { daily := [], acts := [], hr := [("42", 1, 95)], metrics := [] }
        rideSummary).1.hr = [("42", 1, 95)] :=
  ⟨by decide,
   (C10_hr_frame (fun _ => zeroHrActRemote)
      { daily := [], acts := [], hr := [("42", 1, 95)], metrics := [] }
      rideSummary (by decide)).1⟩

/-- Counterexample to C7 as stated: with credentials present but malformed
(a non-address email string), the credential check of lines 140-143 passes
and the run attempts the remote `login` call — it does not abort before any
remote call. -/
theorem C7_counterexample :
    envTruthy malformedCredEnv.email = true
    ∧ envTruthy malformedCredEnv.password = true
    ∧ runCalls malformedCredEnv = [RemoteCall.login]
    ∧ runCalls malformedCredEnv ≠ [] := by decide

/-- C7 (amended).
When either credential environment variable is missing or empty, the run
aborts immediately with a configuration error, attempts zero remote calls,
and writes zero records; credentials that are present but malformed are
only rejected by the login call itself, which is a remote call. -/
theorem C7_missing_creds_abort (env : RunEnv) (init : SyncState)
    (h : envTruthy env.email = false ∨ envTruthy env.password = false) :
    fetch_garmin_data env init = (RunOutcome.configExit, [], init) := by
  have hc : (envTruthy env.email && envTruthy env.password) = false := by
    rcases h with h | h <;> simp [h]
  simp [fetch_garmin_data, runOutcome, runCalls, runFinalState, hc]

/-- Witness for C7 (amended) with the email variable unset. -/
theorem C7_witness :
    (envTruthy missingCredEnv.email = false ∨ envTruthy missingCredEnv.password = false)
    ∧ fetch_garmin_data missingCredEnv emptyDB = (RunOutcome.configExit, [], emptyDB) :=
  ⟨Or.inl (by decide), C7_missing_creds_abort missingCredEnv emptyDB (Or.inl (by decide))⟩

/-- Counterexample to C8 as stated: a transient network failure during
login is handled identically to the auth-specific expired-credentials
failure — same outcome, same remote calls, same stored state — and the
login is attempted exactly once, so there is neither a distinct error kind
nor any retry of the transient failure. -/
theorem C8_counterexample :
    fetch_garmin_data transientLoginEnv emptyDB = fetch_garmin_data authLoginEnv emptyDB
    ∧ (runCalls transientLoginEnv).count RemoteCall.login = 1 := by decide

/-- C8 (amended).
Any exception during login — auth-specific or transient — is fatal and
uniform: the run exits with the same outcome after exactly one login
attempt, nothing is written, and no distinction is made by error kind. -/
theorem C8_login_failure_uniform (env : RunEnv) (init : SyncState) (e : LoginErr)
    (hl : env.login = Except.error e)
    (he : envTruthy env.email = true) (hp : envTruthy env.password = true) :
    fetch_garmin_data env init = (RunOutcome.loginExit, [RemoteCall.login], init) := by
  simp [fetch_garmin_data, runOutcome, runCalls, runFinalState, he, hp, hl]

/-- Witness for C8 (amended) at the transient network failure. -/
theorem C8_witness :
    transientLoginEnv.login = Except.error LoginErr.network
    ∧ envTruthy transientLoginEnv.email = true
    ∧ envTruthy transientLoginEnv.password = true
    ∧ fetch_garmin_data transientLoginEnv emptyDB
        = (RunOutcome.loginExit, [RemoteCall.login], emptyDB) :=
  ⟨rfl, by decide, by decide,
   C8_login_failure_uniform transientLoginEnv emptyDB LoginErr.network rfl
     (by decide) (by decide)⟩

/-- Counterexample to C1 as stated: when the heart-rate Field Fetcher
raises, the error propagates to the per-date handler and the whole date is
skipped — no record is stored, so none of the other fields is populated
either. -/
theorem C1_counterexample :
    fetchDaily hrFailRemote = none
    ∧ lookupDaily (dailyLoop (fun _ => hrFailRemote) ["2024-01-01"] []) "2024-01-01"
        = none := by decide

/-- C1 (amended).
A failure of any one of the four guarded fetchers (sleep, body battery,
respiration, SpO2) degrades to unknown for its own fields only: every field
of the produced record is computed from its own fetcher's response alone, a
failing guarded fetcher contributes `none`, and the record is still built
and persisted for that date.  A failure of the stats or heart-rate fetcher,
by contrast, yields no record at all (the date is skipped). -/
theorem C1_guarded_fetchers_independent (r : DailyRemote) (st0 : StatsData) (hd0 : HrData)
    (hs : r.get_stats = some st0) (hh : r.get_heart_rates = some hd0) :
    (∃ rec, fetchDaily r = some rec
      ∧ rec.steps = st0.totalSteps
      ∧ rec.distance_meters = st0.totalDistanceMeters
      ∧ rec.resting_hr = hd0.restingHeartRate
      ∧ rec.max_hr = hd0.maxHeartRate
      ∧ rec.vo2_max = st0.vo2Max
      ∧ rec.sleep_score = (sleepFields r.get_sleep_data).1
      ∧ rec.sleep_duration = (sleepFields r.get_sleep_data).2
      ∧ rec.body_battery = bodyBatteryField r.get_body_battery
      ∧ rec.respiration = respirationField r.get_respiration_data
      ∧ rec.spo2 = spo2Field r.get_pulse_ox
      ∧ ∀ (env : String → DailyRemote) (s : DailyStore) (d : String),
          env d = r → dailyStep env s d = save_daily_health s d rec)
    ∧ sleepFields none = (none, none)
    ∧ bodyBatteryField none = none
    ∧ respirationField none = none
    ∧ spo2Field none = none
    ∧ (∀ x : DailyRemote, x.get_stats = none ∨ x.get_heart_rates = none →
        fetchDaily x = none) := by
  have hfd : fetchDaily r = some
      { steps := st0.totalSteps, distance_meters := st0.totalDistanceMeters,
        resting_hr := hd0.restingHeartRate, max_hr := hd0.maxHeartRate,
        sleep_duration := (sleepFields r.get_sleep_data).2,
        sleep_score := (sleepFields r.get_sleep_data).1,
        body_battery := bodyBatteryField r.get_body_battery,
        respiration := respirationField r.get_respiration_data,
        spo2 := spo2Field r.get_pulse_ox,
        vo2_max := st0.vo2Max } := by
    simp [fetchDaily, hs, hh]
  refine ⟨⟨_, hfd, rfl, rfl, rfl, rfl, rfl, rfl, rfl, rfl, rfl, rfl, ?_⟩,
    rfl, rfl, rfl, rfl, ?_⟩
  · intro env s d he
    simp [dailyStep, he, hfd]
  · intro x hx
    rcases hx with hx | hx
    · simp [fetchDaily, hx]
    · cases hxs : x.get_stats with
      | none => simp [fetchDaily, hxs]
      | some y => simp [fetchDaily, hxs, hx]

/-- Witness for C1 (amended): a raising sleep endpoint leaves sleep unknown
while the record is still produced. -/
theorem C1_witness :
    sleepFailRemote.get_stats = some ⟨some 1000, some 2000, some 40⟩
    ∧ sleepFailRemote.get_heart_rates = some ⟨some 60, some 150⟩
    ∧ ∃ rec, fetchDaily sleepFailRemote = some rec
        ∧ rec.sleep_score = none ∧ rec.steps = some 1000 := by
  refine ⟨by decide, by decide, ?_⟩
  obtain ⟨rec, hrec, hsteps, -, -, -, -, hscore, -, -, -, -, -⟩ :=
    (C1_guarded_fetchers_independent sleepFailRemote ⟨some 1000, some 2000, some 40⟩
      ⟨some 60, some 150⟩ (by decide) (by decide)).1
  refine ⟨rec, hrec, ?_, ?_⟩
  · rw [hscore]; decide
  · rw [hsteps]

/-- Counterexample to C5 as stated: a failing activity-detail sub-fetch
prevents the core ActivityRecord from being persisted — the whole activity
is skipped and no persistence event happens. -/
theorem C5_counterexample :
    (processActivity (fun _ => detailFailActRemote) emptyDB rideSummary).1.acts = []
    ∧ (processActivity (fun _ => detailFailActRemote) emptyDB rideSummary).2 = [] := by
  decide

/-- C5 (amended).
Once the activity-detail fetch returns, the core ActivityRecord is
persisted whatever the heart-rate sub-fetch does, and the persistence
events per activity are ordered record upsert first, then the optional
heart-rate replace, then the optional sport-metrics replace; a raising
activity-detail fetch instead skips the activity entirely, persisting
nothing for it. -/
theorem C5_order_and_independence (actEnv : String → ActivityRemote) (st : SyncState)
    (a : ActivitySummary) (details : ActivityDetails)
    (hg : (actEnv a.activityId).get_activity = some details) :
    lookupAct (processActivity actEnv st a).1.acts a.activityId
        = some (mkActivityRecord a)
    ∧ (∃ hrEvs mEvs,
        (processActivity actEnv st a).2
          = PersistEvent.upsertActivity a.activityId :: (hrEvs ++ mEvs)
        ∧ (hrEvs = [] ∨ hrEvs = [PersistEvent.replaceHr a.activityId])
        ∧ (mEvs = [] ∨ mEvs = [PersistEvent.replaceMetrics a.activityId]))
    ∧ (∀ b : ActivitySummary, (actEnv b.activityId).get_activity = none →
        processActivity actEnv st b = (st, [])) := by
  refine ⟨?_, ?_, ?_⟩
  · rw [processActivity_detail_some actEnv st a details hg]
    exact lookupAct_save_self _ _ _
  · rw [processActivity_detail_some actEnv st a details hg]
    refine ⟨_, _, rfl, ?_, ?_⟩
    · by_cases hp : ptsOf actEnv a.activityId = [] <;> simp [hp]
    · by_cases hm : extractSportMetrics (a.typeKey.getD "unknown") details = [] <;> simp [hm]
  · intro b hb
    exact processActivity_detail_none actEnv st b hb

/-- Witness for C5 (amended) at a successful detail fetch. -/
theorem C5_witness :
    ((fun _ : String => okActRemote) rideSummary.activityId).get_activity = some rideDetails
    ∧ lookupAct (processActivity (fun _ => okActRemote) emptyDB rideSummary).1.acts
        rideSummary.activityId = some (mkActivityRecord rideSummary) :=
  ⟨by decide,
   (C5_order_and_independence (fun _ => okActRemote) emptyDB rideSummary rideDetails
      (by decide)).1⟩

theorem lookupDaily_step_ne (env : String → DailyRemote) (s : DailyStore) (d q : String)
    (h : q ≠ d) : lookupDaily (dailyStep env s d) q = lookupDaily s q := by
  unfold dailyStep
  cases fetchDaily (env d) with
  | none => rfl
  | some v => exact lookupDaily_save_ne s d q v h

theorem lookupDaily_loop_not_mem (env : String → DailyRemote) (dates : List String)
    (s : DailyStore) (q : String) (h : q ∉ dates) :
    lookupDaily (dailyLoop env dates s) q = lookupDaily s q := by
  induction dates generalizing s with
  | nil => rfl
  | cons d ds ih =>
    have he : dailyLoop env (d :: ds) s = dailyLoop env ds (dailyStep env s d) := rfl
    rw [he, ih (dailyStep env s d) (fun hm => h (List.mem_cons_of_mem _ hm)),
      lookupDaily_step_ne env s d q (fun e => h (e ▸ List.mem_cons_self _ _))]

theorem lookupDaily_step_isSome (env : String → DailyRemote) (s : DailyStore) (d q : String)
    (h : (lookupDaily s q).isSome) : (lookupDaily (dailyStep env s d) q).isSome := by
  by_cases hq : q = d
  · subst hq
    unfold dailyStep
    cases hf : fetchDaily (env q) with
    | none => exact h
    | some v => simp [lookupDaily_save_self]
  · rw [lookupDaily_step_ne env s d q hq]
    exact h

theorem lookupDaily_loop_isSome (env : String → DailyRemote) (dates : List String)
    (s : DailyStore) (q : String) (h : (lookupDaily s q).isSome) :
    (lookupDaily (dailyLoop env dates s) q).isSome := by
  induction dates generalizing s with
  | nil => exact h
  | cons d ds ih => exact ih _ (lookupDaily_step_isSome env s d q h)

theorem keysNodup_save (s : DailyStore) (d : String) (v : DailyData)
    (h : (s.map Prod.fst).Nodup) :
    ((save_daily_health s d v).map Prod.fst).Nodup := by
  unfold save_daily_health
  rw [List.map_cons, List.nodup_cons]
  constructor
  · intro hmem
    rcases List.mem_map.mp hmem with ⟨p, hp, he⟩
    have hpred := List.of_mem_filter hp
    simp [he] at hpred
  · exact h.sublist (List.Sublist.map Prod.fst (List.filter_sublist s))

theorem keysNodup_step (env : String → DailyRemote) (s : DailyStore) (d : String)
    (h : (s.map Prod.fst).Nodup) : ((dailyStep env s d).map Prod.fst).Nodup := by
  unfold dailyStep
  cases fetchDaily (env d) with
  | none => exact h
  | some v => exact keysNodup_save s d v h

theorem keysNodup_loop (env : String → DailyRemote) (dates : List String) (s : DailyStore)
    (h : (s.map Prod.fst).Nodup) : ((dailyLoop env dates s).map Prod.fst).Nodup := by
  induction dates generalizing s with
  | nil => exact h
  | cons d ds ih => exact ih _ (keysNodup_step env s d h)

theorem lookupDaily_loop_ok (env : String → DailyRemote) (dates : List String) :
    ∀ (s : DailyStore) (d : String), d ∈ dates → (fetchDaily (env d)).isSome →
      (lookupDaily (dailyLoop env dates s) d).isSome := by
  induction dates with
  | nil =>
    intro s d hd
    cases hd
  | cons d0 ds ih =>
    intro s d hd hf
    rcases List.mem_cons.mp hd with rfl | hm
    · refine lookupDaily_loop_isSome env ds (dailyStep env s d) d ?_
      unfold dailyStep
      cases hfe : fetchDaily (env d) with
      | none => rw [hfe] at hf; cases hf
      | some v => simp [lookupDaily_save_self]
    · exact ih (dailyStep env s d0) d hm hf

theorem lookupDaily_loop_skip (env : String → DailyRemote) (dates : List String) :
    dates.Nodup → ∀ (s : DailyStore) (d : String), d ∈ dates → fetchDaily (env d) = none →
      lookupDaily (dailyLoop env dates s) d = lookupDaily s d := by
  induction dates with
  | nil =>
    intro _ s d hd
    cases hd
  | cons d0 ds ih =>
    intro hnd s d hd hf
    rcases List.mem_cons.mp hd with rfl | hm
    · have hstep : dailyStep env s d = s := by
        unfold dailyStep
        rw [hf]
      show lookupDaily (dailyLoop env ds (dailyStep env s d)) d = lookupDaily s d
      rw [hstep]
      exact lookupDaily_loop_not_mem env ds s d (List.nodup_cons.mp hnd).1
    · have hne : d ≠ d0 := fun e => (List.nodup_cons.mp hnd).1 (e ▸ hm)
      show lookupDaily (dailyLoop env ds (dailyStep env s d0)) d = lookupDaily s d
      rw [ih (List.nodup_cons.mp hnd).2 _ d hm hf, lookupDaily_step_ne env s d0 d hne]

/-- Counterexample to C2 as stated: on a date where the stats fetcher
raises, the daily loop persists no record for that date — the date is
skipped and the stored date axis has a gap. -/
theorem C2_counterexample :
    lookupDaily (dailyLoop (fun _ => statsFailRemote) ["2024-01-02"] []) "2024-01-02"
      = none := by decide

/-- C2 (amended).
The daily loop never stores duplicate dates; every date of the range whose
stats and heart-rate calls succeed gets a record — even when those
responses and all remaining fetchers carry no data, in which case the
record has every field unknown — but a date on which the stats or
heart-rate call raises is skipped outright, leaving any prior stored state
for that date unchanged (a gap on a fresh store). -/
theorem C2_one_record_per_fetched_date (env : String → DailyRemote) (dates : List String)
    (s : DailyStore) :
    ((s.map Prod.fst).Nodup → ((dailyLoop env dates s).map Prod.fst).Nodup)
    ∧ (∀ d, d ∈ dates → (fetchDaily (env d)).isSome →
        (lookupDaily (dailyLoop env dates s) d).isSome)
    ∧ fetchDaily
        { get_stats := some { totalSteps := none, totalDistanceMeters := none, vo2Max := none },
          get_heart_rates := some { restingHeartRate := none, maxHeartRate := none },
          get_sleep_data := none, get_body_battery := none,
          get_respiration_data := none, get_pulse_ox := none }
        = some { steps := none, distance_meters := none, resting_hr := none, max_hr := none,
                 sleep_duration := none, sleep_score := none, body_battery := none,
                 respiration := none, spo2 := none, vo2_max := none }
    ∧ (dates.Nodup → ∀ d, d ∈ dates → fetchDaily (env d) = none →
        lookupDaily (dailyLoop env dates s) d = lookupDaily s d) := by
  refine ⟨keysNodup_loop env dates s, ?_, by decide, ?_⟩
  · intro d hd hf
    exact lookupDaily_loop_ok env dates s d hd hf
  · intro hnd d hd hf
    exact lookupDaily_loop_skip env dates hnd s d hd hf

theorem okPairs_key_mem (env : String → DailyRemote) (dates : List String) (k : String)
    (h : k ∈ (okPairs env dates).map Prod.fst) : k ∈ dates := by
  rcases List.mem_map.mp h with ⟨p, hp, he⟩
  rcases List.mem_filterMap.mp hp with ⟨d, hd, hmap⟩
  rcases Option.map_eq_some'.mp hmap with ⟨v, hv, he2⟩
  rw [← he, ← he2]
  exact hd

theorem dailyLoop_char (env : String → DailyRemote) (dates : List String) :
    dates.Nodup → ∀ s : DailyStore,
      dailyLoop env dates s
        = (okPairs env dates).reverse
          ++ s.filter (fun p => !(((okPairs env dates).map Prod.fst).contains p.1)) := by
  induction dates with
  | nil =>
    intro _ s
    simp [dailyLoop, okPairs]
  | cons d ds ih =>
    intro hnd s
    have hdmem := (List.nodup_cons.mp hnd).1
    have htail := (List.nodup_cons.mp hnd).2
    show dailyLoop env ds (dailyStep env s d) = _
    cases hf : fetchDaily (env d) with
    | none =>
      have hstep : dailyStep env s d = s := by
        unfold dailyStep
        rw [hf]
      have hok : okPairs env (d :: ds) = okPairs env ds := by
        simp [okPairs, List.filterMap_cons, hf]
      rw [hstep, ih htail s, hok]
    | some v =>
      have hstep : dailyStep env s d = save_daily_health s d v := by
        unfold dailyStep
        rw [hf]
      have hok : okPairs env (d :: ds) = (d, v) :: okPairs env ds := by
        simp [okPairs, List.filterMap_cons, hf]
      have hdnotin : (((okPairs env ds).map Prod.fst).contains d) = false := by
        have hno : d ∉ (okPairs env ds).map Prod.fst :=
          fun hmem => hdmem (okPairs_key_mem env ds d hmem)
        simp [hno]
      rw [hstep, ih htail _, hok]
      rw [show save_daily_health s d v = (d, v) :: s.filter (fun p => p.1 != d) from rfl]
      rw [List.filter_cons]
      simp only [hdnotin, Bool.not_false, if_true]
      rw [filter_ne_then_notin s d _, List.reverse_cons, List.append_assoc]
      simp [List.contains_cons]

theorem dailyLoop_idem (env : String → DailyRemote) (dates : List String)
    (hnd : dates.Nodup) (s : DailyStore) :
    dailyLoop env dates (dailyLoop env dates s) = dailyLoop env dates s := by
  rw [dailyLoop_char env dates hnd s, dailyLoop_char env dates hnd _]
  rw [List.filter_append]
  have h1 : (okPairs env dates).reverse.filter
      (fun p => !(((okPairs env dates).map Prod.fst).contains p.1)) = [] := by
    rw [List.filter_eq_nil_iff]
    intro p hp
    have hmem : p.1 ∈ (okPairs env dates).map Prod.fst :=
      List.mem_map_of_mem Prod.fst (List.mem_reverse.mp hp)
    simp [hmem]
  rw [h1, List.nil_append, filter_idem]

theorem actOkPairs_key_mem (actEnv : String → ActivityRemote) (acts : List ActivitySummary)
    (k : String) (h : k ∈ (actOkPairs actEnv acts).map Prod.fst) :
    k ∈ acts.map (fun a => a.activityId) := by
  rcases List.mem_map.mp h with ⟨p, hp, he⟩
  rcases List.mem_filterMap.mp hp with ⟨a, ha, hmap⟩
  rcases Option.map_eq_some'.mp hmap with ⟨u, hu, he2⟩
  rw [← he, ← he2]
  exact List.mem_map_of_mem _ ha

theorem hrReplacedIds_mem (actEnv : String → ActivityRemote) (acts : List ActivitySummary)
    (k : String) (h : k ∈ hrReplacedIds actEnv acts) :
    k ∈ acts.map (fun a => a.activityId) := by
  rcases List.mem_filterMap.mp h with ⟨a, ha, hmap⟩
  cases hg : (actEnv a.activityId).get_activity with
  | none => simp [hg] at hmap
  | some details =>
    simp only [hg] at hmap
    split at hmap
    · cases hmap
    · injection hmap with he
      rw [← he]
      exact List.mem_map_of_mem _ ha

theorem smReplacedIds_mem (actEnv : String → ActivityRemote) (acts : List ActivitySummary)
    (k : String) (h : k ∈ smReplacedIds actEnv acts) :
    k ∈ acts.map (fun a => a.activityId) := by
  rcases List.mem_filterMap.mp h with ⟨a, ha, hmap⟩
  cases hg : (actEnv a.activityId).get_activity with
  | none => simp [hg] at hmap
  | some details =>
    simp only [hg] at hmap
    split at hmap
    · cases hmap
    · injection hmap with he
      rw [← he]
      exact List.mem_map_of_mem _ ha

theorem activityLoop_daily (actEnv : String → ActivityRemote) (acts : List ActivitySummary) :
    ∀ st : SyncState, (activityLoop actEnv acts st).daily = st.daily := by
  induction acts with
  | nil => intro st; rfl
  | cons a rest ih =>
    intro st
    show (activityLoop actEnv rest (processActivity actEnv st a).1).daily = st.daily
    rw [ih]
    cases hg : (actEnv a.activityId).get_activity with
    | none => rw [processActivity_detail_none actEnv st a hg]
    | some details => rw [processActivity_detail_some actEnv st a details hg]

theorem activityLoop_acts (actEnv : String → ActivityRemote) (acts : List ActivitySummary) :
    (acts.map (fun a => a.activityId)).Nodup → ∀ st : SyncState,
      (activityLoop actEnv acts st).acts
        = (actOkPairs actEnv acts).reverse
          ++ st.acts.filter
              (fun p => !(((actOkPairs actEnv acts).map Prod.fst).contains p.1)) := by
  induction acts with
  | nil =>
    intro _ st
    simp [activityLoop, actOkPairs]
  | cons a rest ih =>
    intro hnd st
    rw [List.map_cons, List.nodup_cons] at hnd
    show (activityLoop actEnv rest (processActivity actEnv st a).1).acts = _
    cases hg : (actEnv a.activityId).get_activity with
    | none =>
      rw [processActivity_detail_none actEnv st a hg, ih hnd.2 st]
      have hok : actOkPairs actEnv (a :: rest) = actOkPairs actEnv rest := by
        simp [actOkPairs, List.filterMap_cons, hg]
      rw [hok]
    | some details =>
      rw [processActivity_detail_some actEnv st a details hg, ih hnd.2 _]
      dsimp only
      have hok : actOkPairs actEnv (a :: rest)
          = (a.activityId, mkActivityRecord a) :: actOkPairs actEnv rest := by
        simp [actOkPairs, List.filterMap_cons, hg]
      have hdnotin : (((actOkPairs actEnv rest).map Prod.fst).contains a.activityId)
          = false := by
        have hno : a.activityId ∉ (actOkPairs actEnv rest).map Prod.fst :=
          fun hmem => hnd.1 (actOkPairs_key_mem actEnv rest a.activityId hmem)
        simp [hno]
      rw [hok]
      simp only [save_activity]
      rw [List.filter_cons]
      simp only [hdnotin, Bool.not_false, if_true]
      rw [filter_ne_then_notin st.acts a.activityId _, List.reverse_cons, List.append_assoc]
      simp [List.contains_cons]

theorem activityLoop_hr (actEnv : String → ActivityRemote) (acts : List ActivitySummary) :
    (acts.map (fun a => a.activityId)).Nodup → ∀ st : SyncState,
      (activityLoop actEnv acts st).hr
        = st.hr.filter (fun row => !((hrReplacedIds actEnv acts).contains row.1))
          ++ acts.flatMap (hrBlockOf actEnv) := by
  induction acts with
  | nil =>
    intro _ st
    simp [activityLoop, hrReplacedIds]
  | cons a rest ih =>
    intro hnd st
    rw [List.map_cons, List.nodup_cons] at hnd
    show (activityLoop actEnv rest (processActivity actEnv st a).1).hr = _
    cases hg : (actEnv a.activityId).get_activity with
    | none =>
      rw [processActivity_detail_none actEnv st a hg, ih hnd.2 st]
      have hids : hrReplacedIds actEnv (a :: rest) = hrReplacedIds actEnv rest := by
        simp [hrReplacedIds, List.filterMap_cons, hg]
      have hblk : hrBlockOf actEnv a = [] := by
        simp [hrBlockOf, hg]
      rw [hids, List.flatMap_cons, hblk, List.nil_append]
    | some details =>
      rw [processActivity_detail_some actEnv st a details hg, ih hnd.2 _]
      dsimp only
      by_cases hp : ptsOf actEnv a.activityId = []
      · have hids : hrReplacedIds actEnv (a :: rest) = hrReplacedIds actEnv rest := by
          simp [hrReplacedIds, List.filterMap_cons, hg, hp]
        have hblk : hrBlockOf actEnv a = [] := by
          simp [hrBlockOf, hg, hp]
        rw [if_pos hp, hids, List.flatMap_cons, hblk, List.nil_append]
      · have hids : hrReplacedIds actEnv (a :: rest)
            = a.activityId :: hrReplacedIds actEnv rest := by
          simp [hrReplacedIds, List.filterMap_cons, hg, hp]
        have hblk : hrBlockOf actEnv a
            = (ptsOf actEnv a.activityId).map (fun p => (a.activityId, p.1, p.2)) := by
          simp [hrBlockOf, hg]
        have hidnotin : ((hrReplacedIds actEnv rest).contains a.activityId) = false := by
          have hno : a.activityId ∉ hrReplacedIds actEnv rest :=
            fun hmem => hnd.1 (hrReplacedIds_mem actEnv rest a.activityId hmem)
          simp [hno]
        rw [if_neg hp]
        simp only [save_activity_heart_rate]
        rw [List.filter_append,
          filter_notin_map_keep (hrReplacedIds actEnv rest) a.activityId
            (fun p : Int × Int => (p.1, p.2)) (ptsOf actEnv a.activityId) hidnotin,
          filter_ne_then_notin st.hr a.activityId _,
          hids, List.flatMap_cons, hblk, List.append_assoc]

theorem activityLoop_metrics (actEnv : String → ActivityRemote) (acts : List ActivitySummary) :
    (acts.map (fun a => a.activityId)).Nodup → ∀ st : SyncState,
      (activityLoop actEnv acts st).metrics
        = st.metrics.filter (fun row => !((smReplacedIds actEnv acts).contains row.1))
          ++ acts.flatMap (smBlockOf actEnv) := by
  induction acts with
  | nil =>
    intro _ st
    simp [activityLoop, smReplacedIds]
  | cons a rest ih =>
    intro hnd st
    rw [List.map_cons, List.nodup_cons] at hnd
    show (activityLoop actEnv rest (processActivity actEnv st a).1).metrics = _
    cases hg : (actEnv a.activityId).get_activity with
    | none =>
      rw [processActivity_detail_none actEnv st a hg, ih hnd.2 st]
      have hids : smReplacedIds actEnv (a :: rest) = smReplacedIds actEnv rest := by
        simp [smReplacedIds, List.filterMap_cons, hg]
      have hblk : smBlockOf actEnv a = [] := by
        simp [smBlockOf, hg]
      rw [hids, List.flatMap_cons, hblk, List.nil_append]
    | some details =>
      rw [processActivity_detail_some actEnv st a details hg, ih hnd.2 _]
      dsimp only
      by_cases hm : extractSportMetrics (a.typeKey.getD "unknown") details = []
      · have hids : smReplacedIds actEnv (a :: rest) = smReplacedIds actEnv rest := by
          simp [smReplacedIds, List.filterMap_cons, hg, hm]
        have hblk : smBlockOf actEnv a = [] := by
          simp [smBlockOf, hg, hm]
        rw [if_pos hm, hids, List.flatMap_cons, hblk, List.nil_append]
      · have hids : smReplacedIds actEnv (a :: rest)
            = a.activityId :: smReplacedIds actEnv rest := by
          simp [smReplacedIds, List.filterMap_cons, hg, hm]
        have hblk : smBlockOf actEnv a
            = (extractSportMetrics (a.typeKey.getD "unknown") details).map
                (fun m => (a.activityId, m.1, m.2)) := by
          simp [smBlockOf, hg]
        have hidnotin : ((smReplacedIds actEnv rest).contains a.activityId) = false := by
          have hno : a.activityId ∉ smReplacedIds actEnv rest :=
            fun hmem => hnd.1 (smReplacedIds_mem actEnv rest a.activityId hmem)
          simp [hno]
        rw [if_neg hm]
        simp only [save_sport_metrics]
        rw [List.filter_append,
          filter_notin_map_keep (smReplacedIds actEnv rest) a.activityId
            (fun m : String × Option Int => (m.1, m.2))
            (extractSportMetrics (a.typeKey.getD "unknown") details) hidnotin,
          filter_ne_then_notin st.metrics a.activityId _,
          hids, List.flatMap_cons, hblk, List.append_assoc]

theorem SyncState.ext_components {s t : SyncState} (h1 : s.daily = t.daily)
    (h2 : s.acts = t.acts) (h3 : s.hr = t.hr) (h4 : s.metrics = t.metrics) : s = t := by
  cases s
  cases t
  cases h1
  cases h2
  cases h3
  cases h4
  rfl

theorem hrBlocks_filter_nil (actEnv : String → ActivityRemote) (acts : List ActivitySummary) :
    (acts.flatMap (hrBlockOf actEnv)).filter
      (fun row => !((hrReplacedIds actEnv acts).contains row.1)) = [] := by
  rw [List.filter_eq_nil_iff]
  intro row hrow
  rcases List.mem_flatMap.mp hrow with ⟨a, ha, hb⟩
  cases hg : (actEnv a.activityId).get_activity with
  | none => simp [hrBlockOf, hg] at hb
  | some details =>
    simp only [hrBlockOf, hg] at hb
    rcases List.mem_map.mp hb with ⟨p, hp, he⟩
    have hne : ptsOf actEnv a.activityId ≠ [] := by
      intro h0
      rw [h0] at hp
      cases hp
    have hmem : a.activityId ∈ hrReplacedIds actEnv acts := by
      refine List.mem_filterMap.mpr ⟨a, ha, ?_⟩
      simp only [hg]
      simp [hne]
    rw [← he]
    simp [hmem]

theorem smBlocks_filter_nil (actEnv : String → ActivityRemote) (acts : List ActivitySummary) :
    (acts.flatMap (smBlockOf actEnv)).filter
      (fun row => !((smReplacedIds actEnv acts).contains row.1)) = [] := by
  rw [List.filter_eq_nil_iff]
  intro row hrow
  rcases List.mem_flatMap.mp hrow with ⟨a, ha, hb⟩
  cases hg : (actEnv a.activityId).get_activity with
  | none => simp [smBlockOf, hg] at hb
  | some details =>
    simp only [smBlockOf, hg] at hb
    rcases List.mem_map.mp hb with ⟨m, hm, he⟩
    have hne : extractSportMetrics (a.typeKey.getD "unknown") details ≠ [] := by
      intro h0
      rw [h0] at hm
      cases hm
    have hmem : a.activityId ∈ smReplacedIds actEnv acts := by
      refine List.mem_filterMap.mpr ⟨a, ha, ?_⟩
      simp only [hg]
      simp [hne]
    rw [← he]
    simp [hmem]

theorem activityLoop_idem (actEnv : String → ActivityRemote) (acts : List ActivitySummary)
    (hnd : (acts.map (fun a => a.activityId)).Nodup) (st : SyncState) :
    activityLoop actEnv acts (activityLoop actEnv acts st) = activityLoop actEnv acts st := by
  apply SyncState.ext_components
  · rw [activityLoop_daily, activityLoop_daily]
  · rw [activityLoop_acts actEnv acts hnd _, activityLoop_acts actEnv acts hnd st,
      List.filter_append]
    have h1 : (actOkPairs actEnv acts).reverse.filter
        (fun p => !(((actOkPairs actEnv acts).map Prod.fst).contains p.1)) = [] := by
      rw [List.filter_eq_nil_iff]
      intro p hp
      have hmem : p.1 ∈ (actOkPairs actEnv acts).map Prod.fst :=
        List.mem_map_of_mem Prod.fst (List.mem_reverse.mp hp)
      simp [hmem]
    rw [h1, List.nil_append, filter_idem]
  · rw [activityLoop_hr actEnv acts hnd _, activityLoop_hr actEnv acts hnd st,
      List.filter_append, hrBlocks_filter_nil, List.append_nil, filter_idem]
  · rw [activityLoop_metrics actEnv acts hnd _, activityLoop_metrics actEnv acts hnd st,
      List.filter_append, smBlocks_filter_nil, List.append_nil, filter_idem]

/-- Witness for C2 (amended) on a one-date range with data present. -/
theorem C2_witness :
    ("2024-01-01" ∈ ["2024-01-01"]
      ∧ (fetchDaily ((fun _ : String => goodRemote) "2024-01-01")).isSome)
    ∧ (lookupDaily (dailyLoop (fun _ => goodRemote) ["2024-01-01"] []) "2024-01-01").isSome :=
  ⟨⟨by decide, by decide⟩,
   (C2_one_record_per_fetched_date (fun _ => goodRemote) ["2024-01-01"] []).2.1
     "2024-01-01" (by decide) (by decide)⟩

/-- C3.
All persistence upserts are idempotent on natural key: running the full
sync twice over the same date range and activity list with the same remote
data leaves the same stored state as running it once, and each upsert is a
full-record last-write-wins replace on the unique date / activity id — the
stored row afterwards is exactly the last record written, never a
field-by-field merge with the old row. -/
theorem C3_upserts_idempotent (env : RunEnv) (init : SyncState)
    (hdates : env.dates.Nodup)
    (hacts : ((env.activities.getD []).map (fun a => a.activityId)).Nodup) :
    runFinalState env (runFinalState env init) = runFinalState env init
    ∧ (∀ (s : DailyStore) (d : String) (v1 v2 : DailyData),
        lookupDaily (save_daily_health (save_daily_health s d v1) d v2) d = some v2)
    ∧ (∀ (s : ActStore) (id : String) (r1 r2 : ActivityRecord),
        lookupAct (save_activity (save_activity s id r1) id r2) id = some r2) := by
  refine ⟨?_, fun s d v1 v2 => lookupDaily_save_self _ _ _,
    fun s id r1 r2 => lookupAct_save_self _ _ _⟩
  cases hb : (envTruthy env.email && envTruthy env.password) with
  | false => simp [runFinalState, hb]
  | true =>
    cases hl : env.login with
    | error e => simp [runFinalState, hb, hl]
    | ok u =>
      cases ha : env.activities with
      | none =>
        have hrun : ∀ X : SyncState, runFinalState env X
            = { daily := dailyLoop env.dailyEnv env.dates X.daily,
                acts := X.acts, hr := X.hr, metrics := X.metrics } := by
          intro X
          simp [runFinalState, hb, hl, ha]
        rw [hrun, hrun]
        exact SyncState.ext_components
          (dailyLoop_idem env.dailyEnv env.dates hdates init.daily) rfl rfl rfl
      | some acts =>
        have hacts2 : (acts.map (fun a => a.activityId)).Nodup := by
          rw [ha] at hacts
          simpa using hacts
        have hrun : ∀ X : SyncState, runFinalState env X
            = activityLoop env.actEnv acts
                { daily := dailyLoop env.dailyEnv env.dates X.daily,
                  acts := X.acts, hr := X.hr, metrics := X.metrics } := by
          intro X
          simp [runFinalState, hb, hl, ha]
        rw [hrun, hrun]
        have hd : dailyLoop env.dailyEnv env.dates
              (activityLoop env.actEnv acts
                { daily := dailyLoop env.dailyEnv env.dates init.daily,
                  acts := init.acts, hr := init.hr, metrics := init.metrics }).daily
            = (activityLoop env.actEnv acts
                { daily := dailyLoop env.dailyEnv env.dates init.daily,
                  acts := init.acts, hr := init.hr, metrics := init.metrics }).daily := by
          rw [activityLoop_daily]
          exact dailyLoop_idem env.dailyEnv env.dates hdates init.daily
        rw [hd]
        exact activityLoop_idem env.actEnv acts hacts2 _

/-- Witness for C3 at a fully successful two-date, one-activity run. -/
theorem C3_witness :
    happyEnv.dates.Nodup
    ∧ ((happyEnv.activities.getD []).map (fun a => a.activityId)).Nodup
    ∧ runFinalState happyEnv (runFinalState happyEnv emptyDB)
        = runFinalState happyEnv emptyDB :=
  ⟨by decide, by decide,
   (C3_upserts_idempotent happyEnv emptyDB (by decide) (by decide)).1⟩

end Garmin
